import Mathlib

/-!
# Verification of `custom_components/spotify_custom/__init__.py`

A shallow embedding of the Spotify custom integration's entry point.  The
module under `src/` is asynchronous glue code: it validates the OAuth2 token,
builds two polling coordinators, registers two services, stores the runtime
bundle on the config entry, validates the granted scopes and forwards the
platform setups.  We embed one setup run as a pure function of an environment
fixing the outcomes of every external call, returning both the side effects on
the host and the outcome (normal return or raised setup exception).

External collaborators (the host OAuth2 session and the generic
`DataUpdateCoordinator`) and repository modules not available under `src/`
(`const.py`, `models.py`, `coordinator.py`) are modelled from the spec; each
such definition carries a doc comment starting with `Modelled from the spec:`.
Everything else is translated directly from `__init__.py`.
-/

namespace SpotifyCustom

/-- A Spotify playback device descriptor as produced by the device-list
endpoint (id, name, active flag). -/
structure Device where
  id : String
  name : String
  isActive : Bool
deriving DecidableEq

/-- Modelled from the spec: the playback/state snapshot fetched by the primary
`SpotifyCoordinator` (its class lives in `coordinator.py`, not under `src/`);
the entry point treats it as opaque, so we use an abstract value. -/
abbrev PlaybackState := String

/-- Modelled from the spec: the failure modes of the host OAuth2 session's
ensure-valid operation. `authError` is the non-retryable "cannot refresh the
grant" failure (Home Assistant's `ConfigEntryAuthFailed`, the spec's
`AuthError`); `clientError` is a transient transport failure
(`aiohttp.ClientError`). -/
inductive SessionError where
  | authError
  | clientError
deriving DecidableEq

/-- The two setup-failure exceptions in the error taxonomy:
`notReady` is `ConfigEntryNotReady` (the spec's `NotReadyError`, retryable) and
`authFailed` is `ConfigEntryAuthFailed` (the spec's `AuthError`,
non-retryable). -/
inductive SetupError where
  | notReady
  | authFailed
deriving DecidableEq

/-- The raw transport exception of the Spotify API client
(`SpotifyConnectionError` from `spotifyaio`). -/
inductive FetchError where
  | spotifyConnectionError
deriving DecidableEq

/-- The coordinator-level poll failure (`UpdateFailed`, the spec's
`FetchFailed`). -/
inductive PollError where
  | updateFailed
deriving DecidableEq

/-- Modelled from the spec: the Token Provider wraps the host `OAuth2Session`
(external to this repository).  `ensureValid` is the outcome of
`async_ensure_token_valid` for this run; `tokenAccess` and `tokenScope` are
the `access_token` and space-separated `scope` fields of the persisted token
record. -/
structure Session where
  ensureValid : Except SessionError Unit
  tokenAccess : String
  tokenScope : String

/-- Embedding of `_refresh_token` (`__init__.py` lines 57-64), the refresh
callback handed to the API client: ensure the session token is valid (any
session error propagates unchanged) and return the access token string. -/
def _refresh_token (session : Session) : Except SessionError String :=
  match session.ensureValid with
  | .ok _ => .ok session.tokenAccess
  | .error e => .error e

/-- Embedding of `_update_devices` (`__init__.py` lines 70-74): perform
`spotify.get_devices()` and re-raise a `SpotifyConnectionError` as
`UpdateFailed`.  The argument is the outcome of the underlying HTTP call. -/
def _update_devices (get_devices : Except FetchError (List Device)) :
    Except PollError (List Device) :=
  match get_devices with
  | .ok devices => .ok devices
  | .error .spotifyConnectionError => .error .updateFailed

/-- Modelled from the spec: the host platform's generic polling coordinator
(`DataUpdateCoordinator`, external to this repository) caches the last
successful result and a success flag for subscribers. -/
structure Coordinator (α : Type) where
  data : Option α
  lastUpdateSuccess : Bool

/-- Modelled from the spec: `async_config_entry_first_refresh` — the first
poll is blocking relative to setup; on success the coordinator starts with the
fetched data, on failure setup fails outright with `NotReadyError`. -/
def Coordinator.firstRefresh {α : Type} (fetch : Except PollError α) :
    Except SetupError (Coordinator α) :=
  match fetch with
  | .ok a => .ok { data := some a, lastUpdateSuccess := true }
  | .error _ => .error .notReady

/-- Modelled from the spec: `async_refresh` — a later poll replaces the data
wholesale on success; on failure the last-good snapshot is retained, the
success flag drops and the failure is only logged/reported, never re-raised to
the awaiting caller (hence the second component is always `Except.ok ()`). -/
def Coordinator.asyncRefresh {α : Type} (c : Coordinator α)
    (fetch : Except PollError α) : Coordinator α × Except PollError Unit :=
  match fetch with
  | .ok a => ({ data := some a, lastUpdateSuccess := true }, .ok ())
  | .error _ => ({ c with lastUpdateSuccess := false }, .ok ())

/-- Modelled from the spec: the service name constant `SERVICE_UPDATE_DEVICES`
from `const.py` (not under `src/`). -/
def SERVICE_UPDATE_DEVICES : String := "update_devices"

/-- Modelled from the spec: the service name constant `SERVICE_SEARCH` from
`const.py` (not under `src/`). -/
def SERVICE_SEARCH : String := "search"

/-- The platforms forwarded at the end of setup (`PLATFORMS`, `__init__.py`
line 32): media player and sensor. -/
def PLATFORMS : List String := ["media_player", "sensor"]

/-- Python's `str.split(" ")` on a character list: split at every single
space, keeping empty pieces between consecutive separators (so `"".split(" ")`
is `[""]` and `"a  b".split(" ")` is `["a", "", "b"]`). -/
def splitOnSpaceAux : List Char → List Char → List String
  | [], acc => [String.mk acc.reverse]
  | c :: cs, acc =>
    if c = ' ' then String.mk acc.reverse :: splitOnSpaceAux cs []
    else splitOnSpaceAux cs (c :: acc)

/-- Python's `str.split(" ")`. -/
def splitOnSpace (s : String) : List String :=
  splitOnSpaceAux s.toList []

/-- Embedding of the scope validation (`__init__.py` line 124):
Python's `set(session.token["scope"].split(" ")).issuperset(SPOTIFY_SCOPES)`.
The required scope list `SPOTIFY_SCOPES` comes from `const.py` (not under
`src/`), so it is a parameter here. -/
def grantedScopesIncludeRequired (tokenScope : String)
    (requiredScopes : List String) : Bool :=
  requiredScopes.all (fun s => (splitOnSpace tokenScope).contains s)

/-- Modelled from the spec: `SpotifyData` (from `models.py`, not under `src/`)
is the per-installation runtime bundle holding exactly the primary
coordinator, the session and the device coordinator, in the order of the
constructor call `SpotifyData(coordinator, session, device_coordinator)` at
`__init__.py` line 122. -/
structure SpotifyData where
  coordinator : Coordinator PlaybackState
  session : Session
  deviceCoordinator : Coordinator (List Device)

/-- The observable side effects of one setup run on the host: which services
were registered (in registration order), the runtime bundle stored on the
config entry, and the platforms forwarded. -/
structure HassState where
  registeredServices : List String
  runtimeData : Option SpotifyData
  forwardedPlatforms : List String

/-- The host state before setup has done anything. -/
def initHassState : HassState :=
  { registeredServices := [], runtimeData := none, forwardedPlatforms := [] }

/-- The environment of one setup run: the session (with the outcome of its
ensure-valid call) and the outcomes of the primary coordinator's first state
fetch and of the first `get_devices` HTTP call. -/
structure SetupEnv where
  session : Session
  firstStateFetch : Except PollError PlaybackState
  firstDeviceFetch : Except FetchError (List Device)

/-- The result of one setup run: the final host state and the outcome —
`Except.ok true` for a normal `return True`, `Except.error` for a raised
setup exception. -/
structure SetupResult where
  state : HassState
  outcome : Except SetupError Bool

/-- Embedding of `async_setup_entry` (`__init__.py` lines 42-128), in source
order: ensure the token is valid (`aiohttp.ClientError` is caught and
re-raised as `ConfigEntryNotReady`, line 48-51; a session auth failure
propagates uncaught); first refresh of the primary coordinator (line 68);
first refresh of the device coordinator over `_update_devices` (line 84);
registration of the `update_devices` and `search` services (lines 90 and 98);
assignment of the runtime bundle (line 122); the scope check (lines 124-125)
raising `ConfigEntryAuthFailed` when granted scopes do not cover the required
ones; platform forwarding and `return True` (lines 127-128). -/
def async_setup_entry (requiredScopes : List String) (env : SetupEnv) :
    SetupResult :=
  match env.session.ensureValid with
  | .error .clientError => { state := initHassState, outcome := .error .notReady }
  | .error .authError => { state := initHassState, outcome := .error .authFailed }
  | .ok _ =>
    match Coordinator.firstRefresh env.firstStateFetch with
    | .error e => { state := initHassState, outcome := .error e }
    | .ok coordinator =>
      match Coordinator.firstRefresh (_update_devices env.firstDeviceFetch) with
      | .error e => { state := initHassState, outcome := .error e }
      | .ok deviceCoordinator =>
        let st : HassState :=
          { registeredServices := [SERVICE_UPDATE_DEVICES, SERVICE_SEARCH],
            runtimeData := some
              { coordinator := coordinator,
                session := env.session,
                deviceCoordinator := deviceCoordinator },
            forwardedPlatforms := [] }
        if grantedScopesIncludeRequired env.session.tokenScope requiredScopes then
          { state := { st with forwardedPlatforms := PLATFORMS }, outcome := .ok true }
        else
          { state := st, outcome := .error .authFailed }

/-- Embedding of `_handle_update_devices_service` (`__init__.py` lines 87-88):
await the device coordinator's `async_refresh` and return no payload; whatever
that await raises would propagate to the service caller. -/
def _handle_update_devices_service (deviceCoordinator : Coordinator (List Device))
    (get_devices : Except FetchError (List Device)) :
    Coordinator (List Device) × Except PollError Unit :=
  deviceCoordinator.asyncRefresh (_update_devices get_devices)

/-- A service call as the handlers see it: the call id and the data mapping
(parameter name, value). -/
structure ServiceCall where
  id : String
  data : List (String × String)

/-- Embedding of `_handle_search` (`__init__.py` lines 93-96): the call data
is ignored and the fixed result list is set for the call id. The value is the
(call id, results) pair passed to `async_set_results`. -/
def _handle_search (call : ServiceCall) : String × List String :=
  (call.id, ["sonuc1", "sonuc2", "sonuc3"])

/-- The construction arguments of the device `DataUpdateCoordinator` that this
module passes explicitly. -/
structure DeviceCoordinatorArgs where
  name : String
  updateIntervalSeconds : Option Nat

/-- Embedding of the device-coordinator construction (`__init__.py` lines
76-83): the name is the entry title followed by " Devices" and
`update_interval=timedelta(minutes=5)`, rendered in seconds. -/
def device_coordinator_args (entryTitle : String) : DeviceCoordinatorArgs :=
  { name := entryTitle ++ " Devices",
    updateIntervalSeconds := some (5 * 60) }

/-- The construction arguments of the primary `SpotifyCoordinator` that this
module passes explicitly, beyond the injected host and client objects. -/
structure SpotifyCoordinatorArgs where
  explicitUpdateIntervalSeconds : Option Nat

/-- Embedding of the primary-coordinator construction (`__init__.py` line 66):
`SpotifyCoordinator(hass, spotify)` passes no update-interval argument from
this module, leaving the interval to the coordinator class / platform
default. -/
def spotify_coordinator_args : SpotifyCoordinatorArgs :=
  { explicitUpdateIntervalSeconds := none }

/-- C8: for every input to the search service handler, the result list is
exactly the fixed three-element list ["sonuc1", "sonuc2", "sonuc3"]; the
call's parameters have no influence on it. -/
theorem search_stub_fixed_result_list (call : ServiceCall) :
    (_handle_search call).2 = ["sonuc1", "sonuc2", "sonuc3"] := rfl

/-- C9: the device coordinator is constructed with a fixed 5-minute (300 s)
update interval, while the primary-coordinator construction in this module
passes no explicit interval (platform-default policy applies). -/
theorem coordinator_update_intervals (entryTitle : String) :
    (device_coordinator_args entryTitle).updateIntervalSeconds = some (5 * 60)
    ∧ spotify_coordinator_args.explicitUpdateIntervalSeconds = none :=
  ⟨rfl, rfl⟩

/-- C5: every invocation of the update_devices service handler produces no
payload and never raises to the caller, whatever the outcome of the
underlying device fetch; a failed refresh only drops the coordinator's
success flag. -/
theorem update_devices_service_never_raises
    (c : Coordinator (List Device)) (get_devices : Except FetchError (List Device)) :
    (_handle_update_devices_service c get_devices).2 = .ok () := by
  cases get_devices with
  | ok ds => rfl
  | error e => cases e; rfl

/-- C4: after at least one successful poll, a failed device poll leaves the
cached device list unchanged for readers, and only a successful poll replaces
the snapshot. -/
theorem device_poll_failure_read_stability
    (c : Coordinator (List Device)) (devices : List Device)
    (hprev : c.data = some devices) :
    ((c.asyncRefresh (_update_devices (.error .spotifyConnectionError))).1).data
        = some devices
    ∧ (∀ newDevices : List Device,
        ((c.asyncRefresh (_update_devices (.ok newDevices))).1).data = some newDevices) := by
  refine ⟨?_, fun newDevices => rfl⟩
  simpa [Coordinator.asyncRefresh, _update_devices] using hprev

/-- C4 witness: a coordinator holding one device keeps it through a failed
poll, and a successful poll replaces the list. -/
theorem device_poll_failure_read_stability_witness :
    ((Coordinator.asyncRefresh
          { data := some [{ id := "d1", name := "Speaker", isActive := true }],
            lastUpdateSuccess := true }
          (_update_devices (.error .spotifyConnectionError))).1).data
        = some [{ id := "d1", name := "Speaker", isActive := true }]
    ∧ (∀ newDevices : List Device,
        ((Coordinator.asyncRefresh
            { data := some [{ id := "d1", name := "Speaker", isActive := true }],
              lastUpdateSuccess := true }
            (_update_devices (.ok newDevices))).1).data = some newDevices) :=
  device_poll_failure_read_stability
    { data := some [{ id := "d1", name := "Speaker", isActive := true }],
      lastUpdateSuccess := true }
    [{ id := "d1", name := "Speaker", isActive := true }] rfl

/-- C2: the ensure-valid operation of the Token Provider: when the session
cannot refresh the grant it fails with `AuthError` — both through the refresh
callback and through the setup-time token check, where it propagates uncaught
as the auth failure — and when the session is valid the callback returns the
access-token string. -/
theorem ensure_valid_token_contract
    (s t : Session) (requiredScopes : List String) (env : SetupEnv)
    (hs : s.ensureValid = .error .authError)
    (ht : t.ensureValid = .ok ())
    (henv : env.session.ensureValid = .error .authError) :
    _refresh_token s = .error .authError
    ∧ _refresh_token t = .ok t.tokenAccess
    ∧ (async_setup_entry requiredScopes env).outcome = .error .authFailed := by
  refine ⟨?_, ?_, ?_⟩
  · simp [_refresh_token, hs]
  · simp [_refresh_token, ht]
  · simp [async_setup_entry, henv]

/-- C2 witness: the contract at a revoked session, a valid session and a setup
run whose token check hits the auth failure. -/
theorem ensure_valid_token_contract_witness :
    _refresh_token { ensureValid := .error .authError, tokenAccess := "x", tokenScope := "" }
        = .error .authError
    ∧ _refresh_token { ensureValid := .ok (), tokenAccess := "tok", tokenScope := "a" }
        = .ok ({ ensureValid := .ok (), tokenAccess := "tok", tokenScope := "a" : Session }).tokenAccess
    ∧ (async_setup_entry ["a"]
        { session := { ensureValid := .error .authError, tokenAccess := "x", tokenScope := "" },
          firstStateFetch := .ok "p",
          firstDeviceFetch := .ok [] }).outcome = .error .authFailed :=
  ensure_valid_token_contract
    { ensureValid := .error .authError, tokenAccess := "x", tokenScope := "" }
    { ensureValid := .ok (), tokenAccess := "tok", tokenScope := "a" }
    ["a"]
    { session := { ensureValid := .error .authError, tokenAccess := "x", tokenScope := "" },
      firstStateFetch := .ok "p",
      firstDeviceFetch := .ok [] }
    rfl rfl rfl

/-- C3: a setup run whose token is valid and whose primary first poll
succeeds, but whose very first device poll fails with the transport error,
fails with `NotReadyError` rather than completing. -/
theorem first_device_poll_transport_failure_not_ready
    (requiredScopes : List String) (env : SetupEnv) (s : PlaybackState)
    (htok : env.session.ensureValid = .ok ())
    (hstate : env.firstStateFetch = .ok s)
    (hdev : env.firstDeviceFetch = .error .spotifyConnectionError) :
    (async_setup_entry requiredScopes env).outcome = .error .notReady := by
  simp [async_setup_entry, htok, hstate, hdev, Coordinator.firstRefresh,
    _update_devices, initHassState]

/-- C3 witness: a concrete setup run whose first device poll hits the
transport error fails with `NotReadyError`. -/
theorem first_device_poll_transport_failure_not_ready_witness :
    (async_setup_entry ["a"]
        { session := { ensureValid := .ok (), tokenAccess := "tok", tokenScope := "a" },
          firstStateFetch := .ok "playing",
          firstDeviceFetch := .error .spotifyConnectionError }).outcome
      = .error .notReady :=
  first_device_poll_transport_failure_not_ready ["a"]
    { session := { ensureValid := .ok (), tokenAccess := "tok", tokenScope := "a" },
      firstStateFetch := .ok "playing",
      firstDeviceFetch := .error .spotifyConnectionError }
    "playing" rfl rfl rfl

/-- C6: transport failures are translated at the adapter boundary: a
`SpotifyConnectionError` from the device fetch becomes `UpdateFailed`, a
successful fetch passes through unchanged, and a transport error at the
setup-time token check is translated to `NotReadyError`; no raw transport
exception crosses the boundary (the codomains carry only translated
errors). -/
theorem transport_errors_translated_at_adapter
    (devices : List Device) (requiredScopes : List String) (env : SetupEnv)
    (henv : env.session.ensureValid = .error .clientError) :
    _update_devices (.error .spotifyConnectionError) = .error .updateFailed
    ∧ _update_devices (.ok devices) = .ok devices
    ∧ (async_setup_entry requiredScopes env).outcome = .error .notReady := by
  refine ⟨rfl, rfl, ?_⟩
  simp [async_setup_entry, henv]

/-- C6 witness: the translation at a concrete device list and a concrete
setup run whose token check hits the transport error. -/
theorem transport_errors_translated_at_adapter_witness :
    _update_devices (.error .spotifyConnectionError) = .error .updateFailed
    ∧ _update_devices (.ok [{ id := "d1", name := "Speaker", isActive := true }])
        = .ok [{ id := "d1", name := "Speaker", isActive := true }]
    ∧ (async_setup_entry ["a"]
        { session := { ensureValid := .error .clientError, tokenAccess := "tok", tokenScope := "a" },
          firstStateFetch := .ok "playing",
          firstDeviceFetch := .ok [] }).outcome = .error .notReady :=
  transport_errors_translated_at_adapter
    [{ id := "d1", name := "Speaker", isActive := true }] ["a"]
    { session := { ensureValid := .error .clientError, tokenAccess := "tok", tokenScope := "a" },
      firstStateFetch := .ok "playing",
      firstDeviceFetch := .ok [] }
    rfl

/-- C7: with a valid token, every required scope granted and both first polls
succeeding, setup returns true and the runtime context stored on the config
entry holds exactly the two coordinators (primary and device, each seeded
with its first snapshot) plus the session. -/
theorem setup_success_populates_runtime_context
    (requiredScopes : List String) (env : SetupEnv) (s : PlaybackState)
    (devices : List Device)
    (htok : env.session.ensureValid = .ok ())
    (hstate : env.firstStateFetch = .ok s)
    (hdev : env.firstDeviceFetch = .ok devices)
    (hscope : grantedScopesIncludeRequired env.session.tokenScope requiredScopes = true) :
    (async_setup_entry requiredScopes env).outcome = .ok true
    ∧ (async_setup_entry requiredScopes env).state.runtimeData =
        some { coordinator := { data := some s, lastUpdateSuccess := true },
               session := env.session,
               deviceCoordinator := { data := some devices, lastUpdateSuccess := true } } := by
  constructor <;>
    simp [async_setup_entry, htok, hstate, hdev, hscope, Coordinator.firstRefresh,
      _update_devices]

/-- C7 witness: a concrete fully-successful setup run returns true and stores
the two seeded coordinators plus the session. -/
theorem setup_success_populates_runtime_context_witness :
    (async_setup_entry ["a", "b"]
        { session := { ensureValid := .ok (), tokenAccess := "tok", tokenScope := "b a" },
          firstStateFetch := .ok "playing",
          firstDeviceFetch := .ok [{ id := "d1", name := "Speaker", isActive := true }] }).outcome
      = .ok true
    ∧ (async_setup_entry ["a", "b"]
        { session := { ensureValid := .ok (), tokenAccess := "tok", tokenScope := "b a" },
          firstStateFetch := .ok "playing",
          firstDeviceFetch := .ok [{ id := "d1", name := "Speaker", isActive := true }] }).state.runtimeData
      = some { coordinator := { data := some "playing", lastUpdateSuccess := true },
               session := { ensureValid := .ok (), tokenAccess := "tok", tokenScope := "b a" },
               deviceCoordinator :=
                 { data := some [{ id := "d1", name := "Speaker", isActive := true }],
                   lastUpdateSuccess := true } } :=
  setup_success_populates_runtime_context ["a", "b"]
    { session := { ensureValid := .ok (), tokenAccess := "tok", tokenScope := "b a" },
      firstStateFetch := .ok "playing",
      firstDeviceFetch := .ok [{ id := "d1", name := "Speaker", isActive := true }] }
    "playing" [{ id := "d1", name := "Speaker", isActive := true }]
    rfl rfl rfl (by decide)

/-- C1 counterexample: a concrete setup run whose granted scope set ("a") is a
strict subset of the required scopes ["a", "b"] does fail with `AuthError`,
but coordinators HAVE been created: the runtime bundle holding both of them is
already stored on the config entry, refuting the claim's "no coordinators are
created". -/
theorem scope_subset_coordinators_created_counterexample :
    (async_setup_entry ["a", "b"]
        { session := { ensureValid := .ok (), tokenAccess := "tok", tokenScope := "a" },
          firstStateFetch := .ok "playing",
          firstDeviceFetch := .ok [] }).outcome = .error .authFailed
    ∧ ((async_setup_entry ["a", "b"]
        { session := { ensureValid := .ok (), tokenAccess := "tok", tokenScope := "a" },
          firstStateFetch := .ok "playing",
          firstDeviceFetch := .ok [] }).state.runtimeData).isSome = true :=
  ⟨rfl, rfl⟩

/-- C1 (amended): for every setup run that reaches the scope check (valid
token, both first polls succeed) with granted scopes not covering the required
set — in particular any strict subset — `async_setup_entry` fails with
`AuthError`; however both coordinators have by then been created and stored
in the runtime context, so only the platform forwarding is skipped. -/
theorem scope_subset_fails_auth_after_coordinators
    (requiredScopes : List String) (env : SetupEnv) (s : PlaybackState)
    (devices : List Device)
    (htok : env.session.ensureValid = .ok ())
    (hstate : env.firstStateFetch = .ok s)
    (hdev : env.firstDeviceFetch = .ok devices)
    (hscope : grantedScopesIncludeRequired env.session.tokenScope requiredScopes = false) :
    (async_setup_entry requiredScopes env).outcome = .error .authFailed
    ∧ (async_setup_entry requiredScopes env).state.runtimeData =
        some { coordinator := { data := some s, lastUpdateSuccess := true },
               session := env.session,
               deviceCoordinator := { data := some devices, lastUpdateSuccess := true } }
    ∧ (async_setup_entry requiredScopes env).state.forwardedPlatforms = [] := by
  refine ⟨?_, ?_, ?_⟩ <;>
    simp [async_setup_entry, htok, hstate, hdev, hscope, Coordinator.firstRefresh,
      _update_devices]

/-- C1 (amended) witness: a concrete run with granted scope "a" against
required ["a", "b"] fails with `AuthError` while the runtime context already
holds both coordinators. -/
theorem scope_subset_fails_auth_after_coordinators_witness :
    (async_setup_entry ["a", "b"]
        { session := { ensureValid := .ok (), tokenAccess := "tok", tokenScope := "a" },
          firstStateFetch := .ok "playing",
          firstDeviceFetch := .ok [{ id := "d1", name := "Speaker", isActive := true }] }).outcome
      = .error .authFailed
    ∧ (async_setup_entry ["a", "b"]
        { session := { ensureValid := .ok (), tokenAccess := "tok", tokenScope := "a" },
          firstStateFetch := .ok "playing",
          firstDeviceFetch := .ok [{ id := "d1", name := "Speaker", isActive := true }] }).state.runtimeData
      = some { coordinator := { data := some "playing", lastUpdateSuccess := true },
               session := { ensureValid := .ok (), tokenAccess := "tok", tokenScope := "a" },
               deviceCoordinator :=
                 { data := some [{ id := "d1", name := "Speaker", isActive := true }],
                   lastUpdateSuccess := true } }
    ∧ (async_setup_entry ["a", "b"]
        { session := { ensureValid := .ok (), tokenAccess := "tok", tokenScope := "a" },
          firstStateFetch := .ok "playing",
          firstDeviceFetch := .ok [{ id := "d1", name := "Speaker", isActive := true }] }).state.forwardedPlatforms
      = [] :=
  scope_subset_fails_auth_after_coordinators ["a", "b"]
    { session := { ensureValid := .ok (), tokenAccess := "tok", tokenScope := "a" },
      firstStateFetch := .ok "playing",
      firstDeviceFetch := .ok [{ id := "d1", name := "Speaker", isActive := true }] }
    "playing" [{ id := "d1", name := "Speaker", isActive := true }]
    rfl rfl rfl (by decide)

/-- C10: when setup reaches the scope validation and fails it, the auth
failure is raised only after both service handlers (update_devices and
search, in that order) were registered and the runtime context was assigned;
none of these side effects are rolled back by the raise. -/
theorem scope_failure_side_effects_not_rolled_back
    (requiredScopes : List String) (env : SetupEnv) (s : PlaybackState)
    (devices : List Device)
    (htok : env.session.ensureValid = .ok ())
    (hstate : env.firstStateFetch = .ok s)
    (hdev : env.firstDeviceFetch = .ok devices)
    (hscope : grantedScopesIncludeRequired env.session.tokenScope requiredScopes = false) :
    (async_setup_entry requiredScopes env).outcome = .error .authFailed
    ∧ (async_setup_entry requiredScopes env).state.registeredServices
        = [SERVICE_UPDATE_DEVICES, SERVICE_SEARCH]
    ∧ ((async_setup_entry requiredScopes env).state.runtimeData).isSome = true := by
  refine ⟨?_, ?_, ?_⟩ <;>
    simp [async_setup_entry, htok, hstate, hdev, hscope, Coordinator.firstRefresh,
      _update_devices]

/-- C10 witness: a concrete run failing the scope check still has both
services registered and the runtime context assigned. -/
theorem scope_failure_side_effects_not_rolled_back_witness :
    (async_setup_entry ["a", "b"]
        { session := { ensureValid := .ok (), tokenAccess := "tok", tokenScope := "b" },
          firstStateFetch := .ok "idle",
          firstDeviceFetch := .ok [] }).outcome = .error .authFailed
    ∧ (async_setup_entry ["a", "b"]
        { session := { ensureValid := .ok (), tokenAccess := "tok", tokenScope := "b" },
          firstStateFetch := .ok "idle",
          firstDeviceFetch := .ok [] }).state.registeredServices
      = [SERVICE_UPDATE_DEVICES, SERVICE_SEARCH]
    ∧ ((async_setup_entry ["a", "b"]
        { session := { ensureValid := .ok (), tokenAccess := "tok", tokenScope := "b" },
          firstStateFetch := .ok "idle",
          firstDeviceFetch := .ok [] }).state.runtimeData).isSome = true :=
  scope_failure_side_effects_not_rolled_back ["a", "b"]
    { session := { ensureValid := .ok (), tokenAccess := "tok", tokenScope := "b" },
      firstStateFetch := .ok "idle",
      firstDeviceFetch := .ok [] }
    "idle" [] rfl rfl rfl (by decide)

end SpotifyCustom
